import Mathlib

/-!
Shallow embedding of the cloudflare-speed-cli repository
(src/src/engine/tls.rs and src/src/update.rs).

Conventions of the embedding:
* Durations are modelled in nanoseconds as natural numbers; the value
  handshake_time.as_secs_f64() * 1000.0 computed by the Rust code is
  modelled exactly as a rational number of milliseconds (for the ranges
  produced by std::time::Duration this conversion is exact enough that
  positivity, finiteness and zero-ness are preserved).
* The outcome of each external interaction (TCP connect, rustls server
  name validation, TLS handshake) is stipulated by a NetEnv record; the
  asynchronous wall clock is modelled by a counter that each awaited
  operation advances by the duration the environment assigns to it.
  Instant::now is monotone and two consecutive readings may coincide,
  which the model reflects by allowing a duration of 0 nanoseconds.
* The trace field records every network interaction the function
  attempts, in program order.
-/

namespace CfSpeed

/-- Model of model::TlsSummary (the fields used by engine/tls.rs):
handshake time in milliseconds, negotiated protocol version and cipher
suite as optional strings. -/
structure TlsSummary where
  handshake_time_ms : ℚ
  protocol_version : Option String
  cipher_suite : Option String
deriving DecidableEq

/-- Nanoseconds to milliseconds, the exact value of
duration.as_secs_f64() * 1000.0 for a duration of n nanoseconds. -/
def nanosToMs (n : ℕ) : ℚ := (n : ℚ) / 1000000

/-- The error taxonomy of measure_tls_handshake, read off the three
error sites of the function: the with_context message on the TCP
connect (networkError, carrying the addr string and the io cause), the
map_err on ServerName conversion (invalidNameError, carrying the
hostname), and the with_context on connector.connect (handshakeError,
carrying the hostname and the tls cause). -/
inductive MeasureError where
  | networkError (addr : String) (cause : String)
  | invalidNameError (hostname : String)
  | handshakeError (hostname : String) (cause : String)
deriving DecidableEq

/-- Network interactions measure_tls_handshake can attempt, in the
order the source performs them. -/
inductive NetEvent where
  | tcpConnect (addr : String)
  | tlsHandshake (serverName : String)
deriving DecidableEq

/-- Stipulated outcomes of the external world for one call of
measure_tls_handshake: how long the TCP connect await takes and whether
it succeeds (with the io error description when it fails), whether
ServerName::try_from accepts the hostname, how long the TLS handshake
await takes and whether it succeeds (with the cause when it fails), and
the session data rustls reports after a successful handshake. -/
structure NetEnv where
  tcpConnectNanos : ℕ
  tcpOk : Bool
  tcpErr : String
  nameOk : Bool
  handshakeNanos : ℕ
  handshakeOk : Bool
  handshakeErr : String
  protocolVersion : Option String
  cipherSuite : Option String

/-- Result of one simulated call: the value the function returns, the
network interactions it attempted, and the final reading of the
monotone clock (which starts at 0). -/
structure MeasureOutcome where
  result : Except MeasureError TlsSummary
  trace : List NetEvent
  finalClock : ℕ

/-- Shallow embedding of measure_tls_handshake (src/src/engine/tls.rs,
lines 22 to 71), line by line:
1. the addr string is format of hostname, a colon and the port;
2. TcpStream::connect(addr).await runs first and is not timed; it
   advances the clock by tcpConnectNanos; on failure the question mark
   operator returns the networkError immediately;
3. ServerName::try_from(hostname) runs next, after the connect; on
   failure the invalidNameError is returned, still before any timing;
4. start = Instant::now() is read only then;
5. connector.connect(server_name, tcp_stream).await advances the clock
   by handshakeNanos; on failure the handshakeError is returned;
6. handshake_time = start.elapsed() is the clock minus start, and the
   summary carries it converted to milliseconds together with the
   session protocol version and cipher suite. -/
def measure_tls_handshake (env : NetEnv) (hostname : String) (port : ℕ) :
    MeasureOutcome :=
  let addr := hostname ++ ":" ++ toString port
  let clock0 : ℕ := 0
  let trace0 : List NetEvent := [NetEvent.tcpConnect addr]
  let clock1 := clock0 + env.tcpConnectNanos
  if env.tcpOk = false then
    { result := Except.error (MeasureError.networkError addr env.tcpErr)
      trace := trace0
      finalClock := clock1 }
  else if env.nameOk = false then
    { result := Except.error (MeasureError.invalidNameError hostname)
      trace := trace0
      finalClock := clock1 }
  else
    let start := clock1
    let trace1 := trace0 ++ [NetEvent.tlsHandshake hostname]
    let clock2 := clock1 + env.handshakeNanos
    if env.handshakeOk = false then
      { result := Except.error (MeasureError.handshakeError hostname env.handshakeErr)
        trace := trace1
        finalClock := clock2 }
    else
      let handshake_time := clock2 - start
      { result := Except.ok
          { handshake_time_ms := nanosToMs handshake_time
            protocol_version := env.protocolVersion
            cipher_suite := env.cipherSuite }
        trace := trace1
        finalClock := clock2 }

/-- Process-wide crypto provider state: none when no provider is
installed, some name when one is. -/
abbrev CryptoState := Option String

/-- Model of CryptoProvider::install_default of rustls: a single atomic
operation on the process-wide state that installs the given provider
when none is installed and otherwise fails, leaving the installed
provider untouched. -/
def install_default (provider : String) (s : CryptoState) :
    Except String Unit × CryptoState :=
  match s with
  | none => (Except.ok (), some provider)
  | some p => (Except.error p, some p)

/-- The name of the provider that rustls::crypto::ring::default_provider
returns. -/
def ring_provider : String := "ring"

/-- Shallow embedding of ensure_crypto_provider (src/src/engine/tls.rs,
lines 12 to 16): installs the ring provider as the default and discards
the result (the let underscore binding), so a failure because a provider
is already installed is ignored. -/
def ensure_crypto_provider (s : CryptoState) : CryptoState :=
  (install_default ring_provider s).2

/-- Model of str::parse::<u32> of Rust as used in update.rs: an optional
leading plus sign, then at least one ascii digit and nothing else, and
the value must fit in 32 bits; anything else is an error (which
filter_map drops). -/
def parseU32 (s : String) : Option ℕ :=
  let cs :=
    match s.toList with
    | '+' :: rest => rest
    | cs => cs
  if cs ≠ [] ∧ cs.all Char.isDigit then
    let v := cs.foldl (fun a c => a * 10 + (c.toNat - 48)) 0
    if v < 4294967296 then some v else none
  else none

/-- Structural split of a character list on a separator character,
with the semantics of str::split of Rust: the empty input yields one
empty part, a separator at the end yields a trailing empty part. -/
def splitOnChar (sep : Char) : List Char → List (List Char)
  | [] => [[]]
  | c :: rest =>
    if c = sep then [] :: splitOnChar sep rest
    else
      match splitOnChar sep rest with
      | [] => [[c]]
      | l :: ls => (c :: l) :: ls

/-- Shallow embedding of the parse closure of is_newer
(src/src/update.rs, lines 37 to 44): split on dots, keep the parts that
parse as u32, and take the first three with 0 as default. -/
def parseVersion (s : String) : ℕ × ℕ × ℕ :=
  let parts := ((splitOnChar '.' s.toList).map String.mk).filterMap parseU32
  (parts.getD 0 0, parts.getD 1 0, parts.getD 2 0)

/-- The comparison parse(latest) > parse(current) of is_newer: the
derived Ord of a Rust tuple (u32, u32, u32), which compares the
components lexicographically. -/
def tupleGt (x y : ℕ × ℕ × ℕ) : Bool :=
  decide (y.1 < x.1) ||
    (decide (x.1 = y.1) &&
      (decide (y.2.1 < x.2.1) ||
        (decide (x.2.1 = y.2.1) && decide (y.2.2 < x.2.2))))

/-- Shallow embedding of is_newer (src/src/update.rs, lines 36 to 46). -/
def is_newer (latest current : String) : Bool :=
  tupleGt (parseVersion latest) (parseVersion current)

/-!
Model of reqwest::Url, which is the url crate, an implementation of the
WHATWG URL standard. extract_host_port uses three of its operations:
Url::parse, Url::host_str and Url::port_or_known_default. The model
below follows the WHATWG parsing algorithm on a restricted input
grammar: ascii input, no percent escapes inside hosts, no bracketed
ipv6 hosts, and numeric hosts only in canonical dotted decimal form
(the real crate additionally normalizes such hosts; inside the modelled
grammar the two agree). Within this grammar the model reproduces the
documented crate behavior: schemes are lowercased; for the special
schemes (http, https, ws, wss, ftp, file) any run of slashes after the
colon is skipped and a nonempty host is required, domains being ascii
lowercased; for file an empty or localhost host yields no host value
(host_str is none) and a windows drive letter is a path, not a host;
for every other scheme a host exists only after two slashes and is kept
verbatim, and an empty host is stored as no host value, because the
crate maps an empty host to its internal none representation, so that
host_str returns none for it; an explicit port is kept only when it
has digits, is below 65536 and differs from the scheme known default.
-/

/-- Parsed URL: the three components extract_host_port reads. The host
field models Url::host_str (none when the URL has no host component),
the port field models Url::port (none when the URL carries no explicit
port or the explicit port equals the scheme known default). -/
structure Url where
  scheme : String
  host : Option String
  port : Option ℕ
deriving DecidableEq

/-- Model of Url::host_str. -/
def Url.host_str (u : Url) : Option String := u.host

/-- The port defaults the url crate knows: http and ws 80, https and
wss 443, ftp 21, and no default for file and for unknown schemes. -/
def knownDefaultPort (s : String) : Option ℕ :=
  if s = "http" then some 80
  else if s = "https" then some 443
  else if s = "ws" then some 80
  else if s = "wss" then some 443
  else if s = "ftp" then some 21
  else none

/-- Model of Url::port_or_known_default: the explicit port when one is
recorded, otherwise the scheme known default. -/
def Url.port_or_known_default (u : Url) : Option ℕ :=
  match u.port with
  | some p => some p
  | none => knownDefaultPort u.scheme

/-- The special schemes of the WHATWG standard. -/
def isSpecialScheme (s : String) : Bool :=
  s = "http" || s = "https" || s = "ws" || s = "wss" || s = "ftp" || s = "file"

/-- A C0 control or space, the characters the WHATWG parser trims from
both ends of the input. -/
def c0OrSpace (c : Char) : Bool := c.toNat ≤ 32

/-- WHATWG input preprocessing: trim leading and trailing C0 controls
and spaces, then remove every ascii tab and newline. -/
def preprocess (cs : List Char) : List Char :=
  (((cs.dropWhile c0OrSpace).reverse.dropWhile c0OrSpace).reverse).filter
    (fun c => c ≠ '\t' && c ≠ '\n' && c ≠ '\r')

/-- Scheme characters after the first: ascii alphanumeric, plus,
minus, dot. -/
def isSchemeChar (c : Char) : Bool :=
  c.isAlphanum || c = '+' || c = '-' || c = '.'

/-- Auxiliary loop of splitScheme: the accumulator holds the lowercased
scheme characters in reverse. -/
def splitSchemeAux (acc : List Char) : List Char → Option (String × List Char)
  | [] => none
  | c :: rest =>
    if c = ':' then some (String.mk acc.reverse, rest)
    else if isSchemeChar c then splitSchemeAux (c.toLower :: acc) rest
    else none

/-- Consume the scheme up to the colon, lowercasing it; none when the
input does not start with an ascii letter followed by scheme characters
and a colon. Returns the scheme and the remaining input. -/
def splitScheme (cs : List Char) : Option (String × List Char) :=
  match cs with
  | [] => none
  | c :: rest =>
    if c.isAlpha then splitSchemeAux [c.toLower] rest else none

/-- Characters that end the authority: slash, question mark, hash, and
for special schemes also backslash. -/
def isAuthorityEnd (special : Bool) (c : Char) : Bool :=
  c = '/' || c = '?' || c = '#' || (special && c = '\\')

/-- The authority substring: everything up to the first terminator. -/
def takeAuthority (special : Bool) (cs : List Char) : List Char :=
  cs.takeWhile (fun c => !isAuthorityEnd special c)

/-- The host and port part of an authority: everything after the last
at sign (the userinfo before it is dropped, as extract_host_port never
reads it). -/
def afterLastAt (cs : List Char) : List Char :=
  (cs.reverse.takeWhile (fun c => c ≠ '@')).reverse

/-- Split the host and port part at the first colon: the host
characters, and the port characters when a colon is present. -/
def splitHostPort (cs : List Char) : List Char × Option (List Char) :=
  match cs.span (fun c => c ≠ ':') with
  | (h, []) => (h, none)
  | (h, _ :: p) => (h, some p)

/-- Value of a list of ascii digits. -/
def digitsToNat (ds : List Char) : ℕ :=
  ds.foldl (fun a c => a * 10 + (c.toNat - 48)) 0

/-- WHATWG port parsing combined with the url crate normalization:
no colon or an empty port means no port; a digit sequence below 65536
is kept, except that a port equal to the scheme known default is
dropped; anything else is a parse failure. -/
def parsePort (scheme : String) : Option (List Char) → Option (Option ℕ)
  | none => some none
  | some [] => some none
  | some ds =>
    if ds.all Char.isDigit then
      let v := digitsToNat ds
      if v < 65536 then
        if knownDefaultPort scheme = some v then some none else some (some v)
      else none
    else none

/-- Characters the model admits in a domain host: ascii alphanumeric,
hyphen, dot, underscore (the WHATWG forbidden domain code points are
all outside this set). -/
def isDomainChar (c : Char) : Bool :=
  c.isAlphanum || c = '-' || c = '.' || c = '_'

/-- Ascii lowercasing of one character. -/
def asciiLower (c : Char) : Char :=
  if 'A' ≤ c ∧ c ≤ 'Z' then Char.ofNat (c.toNat + 32) else c

/-- Ascii hexadecimal digit. -/
def isHexDigitChar (c : Char) : Bool :=
  c.isDigit || ('a' ≤ c ∧ c ≤ 'f') || ('A' ≤ c ∧ c ≤ 'F')

/-- A label the WHATWG host parser treats as a number: all digits, or a
0x prefix followed by hexadecimal digits. -/
def isNumericLabel (l : List Char) : Bool :=
  (!l.isEmpty && l.all Char.isDigit) ||
    (match l with
     | '0' :: 'x' :: rest => rest.all isHexDigitChar
     | _ => false)

/-- Whether a host ends in a number in the WHATWG sense: the last dot
separated label (ignoring one trailing empty label) is numeric. Such a
host must parse as an ipv4 address. -/
def endsInNumber (cs : List Char) : Bool :=
  let ls := splitOnChar '.' cs
  let ls := match ls.getLast? with
    | some l => if l.isEmpty then ls.dropLast else ls
    | none => ls
  match ls.getLast? with
  | some l => isNumericLabel l
  | none => false

/-- Canonical dotted decimal ipv4 text: exactly four labels, each a
digit sequence without leading zeros and at most 255. The real parser
also accepts and normalizes non canonical forms; those are outside the
modelled grammar. -/
def canonicalIpv4 (cs : List Char) : Bool :=
  let ls := splitOnChar '.' cs
  decide (ls.length = 4) && ls.all (fun l =>
    !l.isEmpty && l.all Char.isDigit &&
      (decide (l = ['0']) || decide (l.head? ≠ some '0')) &&
      decide (digitsToNat l ≤ 255))

/-- Domain host parsing for special schemes: nonempty, only domain
characters, ascii lowercased; a host that ends in a number must be
canonical ipv4 text. -/
def parseDomain (cs : List Char) : Option String :=
  if cs.isEmpty then none
  else if cs.all isDomainChar then
    if endsInNumber (cs.map asciiLower) then
      if canonicalIpv4 (cs.map asciiLower) then some (String.mk (cs.map asciiLower))
      else none
    else some (String.mk (cs.map asciiLower))
  else none

/-- WHATWG forbidden host code points, checked on opaque hosts of non
special schemes. -/
def forbiddenHostChar (c : Char) : Bool :=
  c.toNat < 32 || c = ' ' || c = '#' || c = '/' || c = ':' || c = '<' ||
    c = '>' || c = '?' || c = '@' || c = '[' || c = '\\' || c = ']' ||
    c = '^' || c = '|' || c.toNat = 127

/-- A windows drive letter: an ascii letter followed by a colon or a
vertical bar (the file scheme treats it as a path, not a host). -/
def isWindowsDriveLetter (cs : List Char) : Bool :=
  match cs with
  | [c1, c2] => c1.isAlpha && (c2 = ':' || c2 = '|')
  | _ => false

/-- Host and port of a special non file authority: userinfo dropped,
host nonempty domain, port parsed with default normalization. The host
is always present on success. -/
def parseSpecialAuthority (scheme : String) (auth : List Char) :
    Option (Option String × Option ℕ) :=
  match parseDomain (splitHostPort (afterLastAt auth)).1 with
  | none => none
  | some h =>
    match parsePort scheme (splitHostPort (afterLastAt auth)).2 with
    | none => none
    | some p => some (some h, p)

/-- Host of a file authority: a windows drive letter, an empty host and
the host localhost all yield no host value; otherwise a nonempty domain
without a port (a colon is not a domain character, so a port part makes
the parse fail, as in the WHATWG file host state). -/
def parseFileAuthority (auth : List Char) : Option (Option String × Option ℕ) :=
  if isWindowsDriveLetter auth then some (none, none)
  else if auth = [] then some (none, none)
  else
    match parseDomain auth with
    | none => none
    | some h => if h = "localhost" then some (none, none) else some (some h, none)

/-- Host and port of a non special authority: userinfo dropped; an
empty host is allowed by the grammar but cannot carry a port, and it is
recorded as no host value, since the crate stores an empty host as its
internal none representation and host_str returns none for it; a
nonempty opaque host is kept verbatim after the forbidden code point
check. -/
def parseOpaqueAuthority (scheme : String) (auth : List Char) :
    Option (Option String × Option ℕ) :=
  if (splitHostPort (afterLastAt auth)).1 = [] then
    match (splitHostPort (afterLastAt auth)).2 with
    | some _ => none
    | none => some (none, none)
  else if (splitHostPort (afterLastAt auth)).1.any forbiddenHostChar then none
  else
    match parsePort scheme (splitHostPort (afterLastAt auth)).2 with
    | none => none
    | some p => some (some (String.mk (splitHostPort (afterLastAt auth)).1), p)

/-- Model of reqwest::Url::parse on the grammar described above:
preprocess, read the scheme, then dispatch: file takes a host only
after exactly two slashes; the other special schemes skip every slash
and backslash and then require an authority with a nonempty host; non
special schemes take an authority only after two slashes and otherwise
have no host. -/
def Url.parse (s : String) : Option Url :=
  match splitScheme (preprocess s.toList) with
  | none => none
  | some (scheme, rest) =>
    if scheme = "file" then
      match rest with
      | c1 :: c2 :: rest2 =>
        if (c1 = '/' || c1 = '\\') && (c2 = '/' || c2 = '\\') then
          match parseFileAuthority (takeAuthority true rest2) with
          | none => none
          | some (h, p) => some { scheme := scheme, host := h, port := p }
        else some { scheme := scheme, host := none, port := none }
      | _ => some { scheme := scheme, host := none, port := none }
    else if isSpecialScheme scheme then
      match parseSpecialAuthority scheme
          (takeAuthority true (rest.dropWhile (fun c => c = '/' || c = '\\'))) with
      | none => none
      | some (h, p) => some { scheme := scheme, host := h, port := p }
    else
      match rest with
      | '/' :: '/' :: rest2 =>
        match parseOpaqueAuthority scheme (takeAuthority false rest2) with
        | none => none
        | some (h, p) => some { scheme := scheme, host := h, port := p }
      | _ => some { scheme := scheme, host := none, port := none }

/-- Shallow embedding of extract_host_port (src/src/engine/tls.rs,
lines 74 to 80): parse the URL, require a host, and take the explicit
or known default port with 443 as the final fallback. -/
def extract_host_port (url : String) : Option (String × ℕ) :=
  (Url.parse url).bind fun u =>
    (u.host_str).bind fun host =>
      some (host, (u.port_or_known_default).getD 443)

/-- Spec side definition for the version comparison claim, following
the words of the spec: ordinary lexicographic order on (major, minor,
patch) integer tuples, stated with the standard lexicographic product
order of the library. -/
def specVersionLt : (ℕ × ℕ × ℕ) → (ℕ × ℕ × ℕ) → Prop :=
  Prod.Lex (· < ·) (Prod.Lex (· < ·) (· < ·))

/-!
Theorems.
-/

/-- The three assertions of the unit test mod tests of
src/src/engine/tls.rs hold of the embedding, anchoring the URL model to
the repository tests. -/
theorem extract_host_port_matches_unit_tests :
    extract_host_port ("https://speed.cloudflare.com") =
      some (("speed.cloudflare.com", 443)) ∧
    extract_host_port ("https://example.com:8443/path") =
      some (("example.com", 8443)) ∧
    extract_host_port ("http://example.com") = some (("example.com", 80)) :=
  ⟨by decide, by decide, by decide⟩

/-- Helper: on every successful call the reported milliseconds are
exactly the duration of the handshake await converted by nanosToMs; the
TCP connect duration does not enter the value. -/
theorem measure_ok_handshake_ms (env : NetEnv) (hostname : String) (port : ℕ)
    (s : TlsSummary)
    (hres : (measure_tls_handshake env hostname port).result = Except.ok s) :
    s.handshake_time_ms = nanosToMs env.handshakeNanos := by
  cases htcp : env.tcpOk with
  | false => simp [measure_tls_handshake, htcp] at hres
  | true =>
    cases hname : env.nameOk with
    | false => simp [measure_tls_handshake, htcp, hname] at hres
    | true =>
      cases hhs : env.handshakeOk with
      | false => simp [measure_tls_handshake, htcp, hname, hhs] at hres
      | true =>
        simp [measure_tls_handshake, htcp, hname, hhs] at hres
        rw [← hres]

/-- C1: in measure_tls_handshake the timing interval starts immediately
before initiating the TLS handshake over the already open TCP
connection and stops immediately after the handshake completes: on
every successful call the reported milliseconds are exactly the
duration of the handshake await, and the result is unchanged under any
change of the duration of the untimed TCP connect phase. -/
theorem C1_timing_covers_exactly_the_handshake :
    (∀ (env : NetEnv) (hostname : String) (port : ℕ) (s : TlsSummary),
        (measure_tls_handshake env hostname port).result = Except.ok s →
        s.handshake_time_ms = nanosToMs env.handshakeNanos) ∧
    (∀ (t1 t2 hn : ℕ) (tOk nOk hOk : Bool) (tErr hErr : String)
        (pv cs : Option String) (hostname : String) (port : ℕ),
        (measure_tls_handshake ⟨t1, tOk, tErr, nOk, hn, hOk, hErr, pv, cs⟩
            hostname port).result =
          (measure_tls_handshake ⟨t2, tOk, tErr, nOk, hn, hOk, hErr, pv, cs⟩
            hostname port).result) := by
  constructor
  · exact measure_ok_handshake_ms
  · intro t1 t2 hn tOk nOk hOk tErr hErr pv cs hostname port
    cases tOk <;> cases nOk <;> cases hOk <;>
      simp [measure_tls_handshake, Nat.add_sub_cancel_left]

/-- Witness for C1 at a concrete environment: with a TCP connect of 3
nanoseconds and a handshake of 5 nanoseconds the summary reports
exactly nanosToMs 5. -/
theorem C1_timing_covers_exactly_the_handshake_witness :
    (measure_tls_handshake ⟨3, true, (""), true, 5, true, (""), none, none⟩
        ("example.com") 443).result = Except.ok ⟨nanosToMs 5, none, none⟩ ∧
    (⟨nanosToMs 5, none, none⟩ : TlsSummary).handshake_time_ms = nanosToMs 5 :=
  ⟨rfl, C1_timing_covers_exactly_the_handshake.1
      ⟨3, true, (""), true, 5, true, (""), none, none⟩ ("example.com") 443
      ⟨nanosToMs 5, none, none⟩ rfl⟩

/-- C2: failures are classified by phase: a failing TCP connect yields
networkError carrying the addr string (hostname, colon, port) and the
underlying cause, never handshakeError; a successful TCP connect with a
valid server name and a failing TLS negotiation yields handshakeError
carrying the hostname and the cause; both paths return an error value,
so no TlsSummary is produced. -/
theorem C2_failure_classified_by_phase :
    ∀ (env : NetEnv) (hostname : String) (port : ℕ),
      (env.tcpOk = false →
        (measure_tls_handshake env hostname port).result =
          Except.error (MeasureError.networkError
            (hostname ++ ":" ++ toString port) env.tcpErr)) ∧
      (env.tcpOk = true → env.nameOk = true → env.handshakeOk = false →
        (measure_tls_handshake env hostname port).result =
          Except.error (MeasureError.handshakeError hostname env.handshakeErr)) := by
  intro env hostname port
  constructor
  · intro h1
    simp [measure_tls_handshake, h1]
  · intro h1 h2 h3
    simp [measure_tls_handshake, h1, h2, h3]

/-- Witness for C2 at a concrete environment with a failing TCP
connect: the result is the networkError carrying address and cause. -/
theorem C2_failure_classified_by_phase_witness :
    ((⟨0, false, ("connection refused"), true, 0, true, (""), none, none⟩ :
        NetEnv).tcpOk = false) ∧
    (measure_tls_handshake
        ⟨0, false, ("connection refused"), true, 0, true, (""), none, none⟩
        ("unreachable.invalid") 443).result =
      Except.error (MeasureError.networkError ("unreachable.invalid:443")
        ("connection refused")) :=
  ⟨rfl, (C2_failure_classified_by_phase
      ⟨0, false, ("connection refused"), true, 0, true, (""), none, none⟩
      ("unreachable.invalid") 443).1 rfl⟩

/-- C3 counterexample: for a syntactically invalid hostname (the
environment stipulates that ServerName::try_from rejects "bad host")
whose TCP connect fails, the function returns networkError, not
invalidNameError, and its trace contains the TCP connect, so a network
connection was attempted: the validity check does not happen before the
TCP connect. -/
theorem C3_counterexample :
    (measure_tls_handshake
        ⟨0, false, ("dns error"), false, 0, false, (""), none, none⟩
        ("bad host") 443).result =
      Except.error (MeasureError.networkError ("bad host:443") ("dns error")) ∧
    (measure_tls_handshake
        ⟨0, false, ("dns error"), false, 0, false, (""), none, none⟩
        ("bad host") 443).result ≠
      Except.error (MeasureError.invalidNameError ("bad host")) ∧
    NetEvent.tcpConnect ("bad host:443") ∈
      (measure_tls_handshake
        ⟨0, false, ("dns error"), false, 0, false, (""), none, none⟩
        ("bad host") 443).trace := by
  refine ⟨rfl, ?_, by decide⟩
  intro hcontra
  simp [measure_tls_handshake] at hcontra

/-- C3 amended: the hostname validity check happens after the TCP
connect but before the timed region begins: whenever the TCP connect
succeeds and the server name is invalid, the call returns
invalidNameError, and its trace holds exactly the TCP connect and no
TLS handshake, so the timed region was never entered. -/
theorem C3_invalid_name_checked_after_connect :
    ∀ (env : NetEnv) (hostname : String) (port : ℕ),
      env.tcpOk = true → env.nameOk = false →
      (measure_tls_handshake env hostname port).result =
        Except.error (MeasureError.invalidNameError hostname) ∧
      (measure_tls_handshake env hostname port).trace =
        [NetEvent.tcpConnect (hostname ++ ":" ++ toString port)] := by
  intro env hostname port h1 h2
  constructor <;> simp [measure_tls_handshake, h1, h2]

/-- Witness for the amended C3 at a concrete environment: TCP connect
succeeds, the name is invalid, the result is invalidNameError and the
trace holds only the connect. -/
theorem C3_invalid_name_checked_after_connect_witness :
    ((⟨0, true, (""), false, 0, false, (""), none, none⟩ : NetEnv).tcpOk = true ∧
      (⟨0, true, (""), false, 0, false, (""), none, none⟩ : NetEnv).nameOk = false) ∧
    ((measure_tls_handshake ⟨0, true, (""), false, 0, false, (""), none, none⟩
        ("bad_host!") 443).result =
      Except.error (MeasureError.invalidNameError ("bad_host!")) ∧
      (measure_tls_handshake ⟨0, true, (""), false, 0, false, (""), none, none⟩
        ("bad_host!") 443).trace = [NetEvent.tcpConnect ("bad_host!:443")]) :=
  ⟨⟨rfl, rfl⟩, C3_invalid_name_checked_after_connect
      ⟨0, true, (""), false, 0, false, (""), none, none⟩ ("bad_host!") 443 rfl rfl⟩

/-- C5 counterexample: a successful call whose two clock readings
coincide reports exactly 0 milliseconds, which is not strictly greater
than 0; the monotone clock behind Instant::now permits two equal
readings, so the code guarantees only nonnegativity. -/
theorem C5_counterexample :
    (measure_tls_handshake ⟨3, true, (""), true, 0, true, (""), none, none⟩
        ("example.com") 443).result = Except.ok ⟨nanosToMs 0, none, none⟩ ∧
    nanosToMs 0 = 0 ∧ ¬ (0 : ℚ) < 0 :=
  ⟨rfl, by norm_num [nanosToMs], by norm_num⟩

/-- C5 amended: on every successful call handshake_time_ms is
nonnegative (and, being a rational value obtained from a duration, it
is finite), and it is strictly positive whenever the measured handshake
interval is positive. -/
theorem C5_handshake_time_nonneg :
    ∀ (env : NetEnv) (hostname : String) (port : ℕ) (s : TlsSummary),
      (measure_tls_handshake env hostname port).result = Except.ok s →
      0 ≤ s.handshake_time_ms ∧
      (0 < env.handshakeNanos → 0 < s.handshake_time_ms) := by
  intro env hostname port s hres
  rw [measure_ok_handshake_ms env hostname port s hres]
  unfold nanosToMs
  constructor
  · positivity
  · intro hpos
    apply div_pos
    · exact_mod_cast hpos
    · norm_num

/-- Witness for the amended C5 at a concrete environment with a 7
nanosecond handshake. -/
theorem C5_handshake_time_nonneg_witness :
    (measure_tls_handshake ⟨0, true, (""), true, 7, true, (""), none, none⟩
        ("example.com") 443).result = Except.ok ⟨nanosToMs 7, none, none⟩ ∧
    (0 ≤ (⟨nanosToMs 7, none, none⟩ : TlsSummary).handshake_time_ms ∧
      (0 < (⟨0, true, (""), true, 7, true, (""), none, none⟩ :
          NetEnv).handshakeNanos →
        0 < (⟨nanosToMs 7, none, none⟩ : TlsSummary).handshake_time_ms)) :=
  ⟨rfl, C5_handshake_time_nonneg
      ⟨0, true, (""), true, 7, true, (""), none, none⟩ ("example.com") 443
      ⟨nanosToMs 7, none, none⟩ rfl⟩

/-- Helper: once the ring provider is installed, every further
invocation of ensure_crypto_provider leaves the state unchanged. -/
theorem ensure_crypto_provider_fixed (k : ℕ) :
    ensure_crypto_provider^[k] (some ring_provider) = some ring_provider := by
  induction k with
  | zero => rfl
  | succ n ih =>
    rw [Function.iterate_succ_apply]
    exact ih

/-- C8: any sequence of at least one invocation of the crypto provider
initializer starting from the uninitialized process state installs the
ring provider exactly once and never fails (the function is total and
discards the error of a repeated install); every invocation on an
already installed state is a no-op. Each invocation is a single atomic
operation on the process-wide state, so an interleaving of N concurrent
calls is one of the sequential orders covered by the iteration. -/
theorem C8_crypto_provider_install_once :
    ∀ (n : ℕ) (s : CryptoState), 1 ≤ n →
      ensure_crypto_provider^[n] none = some ring_provider ∧
      ensure_crypto_provider (ensure_crypto_provider s) =
        ensure_crypto_provider s := by
  intro n s hn
  constructor
  · obtain ⟨k, rfl⟩ : ∃ k, n = k + 1 := ⟨n - 1, by omega⟩
    rw [Function.iterate_succ_apply]
    exact ensure_crypto_provider_fixed k
  · cases s <;> rfl

/-- Witness for C8 with two invocations from the uninitialized state. -/
theorem C8_crypto_provider_install_once_witness :
    (1 ≤ 2) ∧
    (ensure_crypto_provider^[2] none = some ring_provider ∧
      ensure_crypto_provider (ensure_crypto_provider none) =
        ensure_crypto_provider none) :=
  ⟨by norm_num, C8_crypto_provider_install_once 2 none (by norm_num)⟩

/-- C9: is_newer decides newer exactly by lexicographic comparison of
the parsed (major, minor, patch) tuples, stated against the standard
lexicographic product order, and returns false when the tuples are
equal. -/
theorem C9_is_newer_is_lexicographic :
    ∀ (latest current : String),
      (is_newer latest current = true ↔
        specVersionLt (parseVersion current) (parseVersion latest)) ∧
      (parseVersion latest = parseVersion current →
        is_newer latest current = false) := by
  intro latest current
  rcases hx : parseVersion latest with ⟨x1, x2, x3⟩
  rcases hy : parseVersion current with ⟨y1, y2, y3⟩
  constructor
  · simp [is_newer, hx, hy, tupleGt, specVersionLt, Prod.lex_def]
    omega
  · intro heq
    simp only [Prod.mk.injEq] at heq
    simp [is_newer, hx, hy, tupleGt]
    omega

/-- Witness for C9: two different strings parsing to equal tuples, on
which is_newer returns false. -/
theorem C9_is_newer_is_lexicographic_witness :
    parseVersion ("1.2.3") = parseVersion ("1.2.03") ∧
    is_newer ("1.2.3") ("1.2.03") = false :=
  ⟨by decide, (C9_is_newer_is_lexicographic ("1.2.3") ("1.2.03")).2 (by decide)⟩

/-- Helper: a nonempty character list makes a nonempty string. -/
theorem String_mk_ne_empty (l : List Char) (hl : l ≠ []) : String.mk l ≠ "" := by
  intro hcontra
  apply hl
  have hdata := congrArg String.data hcontra
  simpa using hdata

/-- Helper: a port recorded by parsePort is below 65536 and differs
from the scheme known default. -/
theorem parsePort_some (scheme : String) (pcs : Option (List Char)) (v : ℕ)
    (h : parsePort scheme pcs = some (some v)) :
    v < 65536 ∧ knownDefaultPort scheme ≠ some v := by
  match pcs with
  | none => simp [parsePort] at h
  | some [] => simp [parsePort] at h
  | some (d :: ds) =>
    simp only [parsePort] at h
    split at h
    · split at h
      · split at h
        · simp at h
        · rename_i hlt hdef
          simp only [Option.some.injEq] at h
          rw [← h]
          exact ⟨hlt, hdef⟩
      · simp at h
    · simp at h

/-- Helper: a domain parseDomain accepts is a nonempty string. -/
theorem parseDomain_ne_empty (cs : List Char) (hs : String)
    (hd : parseDomain cs = some hs) : hs ≠ "" := by
  unfold parseDomain at hd
  split at hd
  · simp at hd
  · rename_i hne
    have hcs : cs ≠ [] := by simpa using hne
    have hmap : cs.map asciiLower ≠ [] := by
      simpa using hcs
    split at hd
    · split at hd
      · split at hd
        · simp only [Option.some.injEq] at hd
          rw [← hd]
          exact String_mk_ne_empty _ hmap
        · simp at hd
      · simp only [Option.some.injEq] at hd
        rw [← hd]
        exact String_mk_ne_empty _ hmap
    · simp at hd

/-- Helper: a special non file authority always records a nonempty
host, and any port it records is below 65536 and differs from the
scheme known default. -/
theorem parseSpecialAuthority_inv (scheme : String) (auth : List Char)
    (hOpt : Option String) (pOpt : Option ℕ)
    (h : parseSpecialAuthority scheme auth = some (hOpt, pOpt)) :
    (∃ hs, hOpt = some hs ∧ hs ≠ "") ∧
    (∀ v, pOpt = some v → v < 65536 ∧ knownDefaultPort scheme ≠ some v) := by
  unfold parseSpecialAuthority at h
  split at h
  · simp at h
  · rename_i hs hdom
    split at h
    · simp at h
    · rename_i p hport
      simp only [Option.some.injEq, Prod.mk.injEq] at h
      obtain ⟨h1, h2⟩ := h
      constructor
      · exact ⟨hs, h1.symm, parseDomain_ne_empty _ _ hdom⟩
      · intro v hv
        rw [h2, hv] at hport
        exact parsePort_some _ _ _ hport

/-- Helper: a file authority records no port, and when it records a
host the host is nonempty. -/
theorem parseFileAuthority_inv (auth : List Char)
    (hOpt : Option String) (pOpt : Option ℕ)
    (h : parseFileAuthority auth = some (hOpt, pOpt)) :
    (∀ hs, hOpt = some hs → hs ≠ "") ∧ pOpt = none := by
  unfold parseFileAuthority at h
  split at h
  · simp only [Option.some.injEq, Prod.mk.injEq] at h
    obtain ⟨h1, h2⟩ := h
    exact ⟨fun hs hh => by rw [← h1] at hh; simp at hh, h2.symm⟩
  · split at h
    · simp only [Option.some.injEq, Prod.mk.injEq] at h
      obtain ⟨h1, h2⟩ := h
      exact ⟨fun hs hh => by rw [← h1] at hh; simp at hh, h2.symm⟩
    · split at h
      · simp at h
      · rename_i hs hdom
        split at h
        · simp only [Option.some.injEq, Prod.mk.injEq] at h
          obtain ⟨h1, h2⟩ := h
          exact ⟨fun hs2 hh => by rw [← h1] at hh; simp at hh, h2.symm⟩
        · simp only [Option.some.injEq, Prod.mk.injEq] at h
          obtain ⟨h1, h2⟩ := h
          refine ⟨fun hs2 hh => ?_, h2.symm⟩
          rw [← h1] at hh
          simp only [Option.some.injEq] at hh
          rw [← hh]
          exact parseDomain_ne_empty _ _ hdom

/-- Helper: when a non special authority records a host the host is
nonempty, and any port it records is below 65536 and differs from the
scheme known default. -/
theorem parseOpaqueAuthority_inv (scheme : String) (auth : List Char)
    (hOpt : Option String) (pOpt : Option ℕ)
    (h : parseOpaqueAuthority scheme auth = some (hOpt, pOpt)) :
    (∀ hs, hOpt = some hs → hs ≠ "") ∧
    (∀ v, pOpt = some v → v < 65536 ∧ knownDefaultPort scheme ≠ some v) := by
  unfold parseOpaqueAuthority at h
  split at h
  · split at h
    · simp at h
    · simp only [Option.some.injEq, Prod.mk.injEq] at h
      obtain ⟨h1, h2⟩ := h
      constructor
      · intro hs hh
        rw [← h1] at hh
        simp at hh
      · intro v hv
        rw [← h2] at hv
        simp at hv
  · rename_i hne
    split at h
    · simp at h
    · split at h
      · simp at h
      · rename_i p hport
        simp only [Option.some.injEq, Prod.mk.injEq] at h
        obtain ⟨h1, h2⟩ := h
        constructor
        · intro hs hh
          rw [← h1] at hh
          simp only [Option.some.injEq] at hh
          rw [← hh]
          exact String_mk_ne_empty _ hne
        · intro v hv
          rw [h2, hv] at hport
          exact parsePort_some _ _ _ hport

/-- Helper: the fallback chain of extract_host_port yields a positive
port below 65536 for every scheme. -/
theorem knownDefaultPort_getD_bounds (scheme : String) :
    0 < (knownDefaultPort scheme).getD 443 ∧
      (knownDefaultPort scheme).getD 443 < 65536 := by
  unfold knownDefaultPort
  repeat' split
  all_goals simp

/-- Helper: every parsed URL satisfies the structural invariants that
extract_host_port relies on: a recorded port is below 65536 and is not
the scheme known default, and any recorded host is nonempty. -/
theorem Url.parse_inv (s : String) (u : Url) (hp : Url.parse s = some u) :
    (∀ v, u.port = some v → v < 65536 ∧ knownDefaultPort u.scheme ≠ some v) ∧
    (∀ hs, u.host = some hs → hs ≠ "") := by
  unfold Url.parse at hp
  split at hp
  · simp at hp
  · rename_i scheme rest
    split at hp
    · split at hp
      · split at hp
        · split at hp
          · simp at hp
          · rename_i ho po hpfa
            simp only [Option.some.injEq] at hp
            rw [← hp]
            have inv := parseFileAuthority_inv _ _ _ hpfa
            constructor
            · intro v hv
              rw [inv.2] at hv
              simp at hv
            · intro hs hh
              exact inv.1 hs hh
        · simp only [Option.some.injEq] at hp
          rw [← hp]
          exact ⟨fun v hv => by simp at hv, fun hs hh => by simp at hh⟩
      · simp only [Option.some.injEq] at hp
        rw [← hp]
        exact ⟨fun v hv => by simp at hv, fun hs hh => by simp at hh⟩
    · split at hp
      · split at hp
        · simp at hp
        · rename_i ho po hpsa
          simp only [Option.some.injEq] at hp
          rw [← hp]
          have inv := parseSpecialAuthority_inv _ _ _ _ hpsa
          constructor
          · intro v hv
            exact inv.2 v hv
          · intro hs hh
            obtain ⟨hs0, hEq, hne⟩ := inv.1
            rw [hEq] at hh
            simp only [Option.some.injEq] at hh
            rw [hh] at hne
            exact hne
      · rename_i hnf hns
        split at hp
        · split at hp
          · simp at hp
          · rename_i ho po hpoa
            simp only [Option.some.injEq] at hp
            rw [← hp]
            have inv := parseOpaqueAuthority_inv _ _ _ _ hpoa
            constructor
            · intro v hv
              exact inv.2 v hv
            · intro hs hh
              exact inv.1 hs hh
        · simp only [Option.some.injEq] at hp
          rw [← hp]
          exact ⟨fun v hv => by simp at hv, fun hs hh => by simp at hh⟩

/-- C4 counterexample: ftp is a scheme the URL parser recognizes and it
is not a secure scheme, yet the selected default port is 21, neither 80
nor 443; the claim that every recognized non secure scheme defaults to
80 fails. -/
theorem C4_counterexample :
    extract_host_port ("ftp://example.com") = some (("example.com", 21)) ∧
    ¬ ((21 : ℕ) = 80 ∨ (21 : ℕ) = 443) :=
  ⟨by decide, by decide⟩

/-- C4 amended: an explicit recorded port is returned exactly;
otherwise the port is the known default of the scheme, namely 80 for
http and ws, 443 for https and wss, 21 for ftp, and 443 for file and
for every unrecognized scheme (the getD 443 fallback). -/
theorem C4_port_selection :
    ∀ (s : String) (u : Url) (host : String) (p : ℕ),
      Url.parse s = some u → extract_host_port s = some (host, p) →
      (∀ q, u.port = some q → p = q) ∧
      (u.port = none →
        ((u.scheme = "http" ∨ u.scheme = "ws") → p = 80) ∧
        ((u.scheme = "https" ∨ u.scheme = "wss") → p = 443) ∧
        (u.scheme = "ftp" → p = 21) ∧
        (u.scheme ≠ "http" → u.scheme ≠ "https" → u.scheme ≠ "ws" →
          u.scheme ≠ "wss" → u.scheme ≠ "ftp" → p = 443)) := by
  intro s u host p hparse hext
  unfold extract_host_port at hext
  rw [hparse] at hext
  simp only [Option.some_bind, Url.host_str] at hext
  cases hh : u.host with
  | none =>
    rw [hh] at hext
    simp at hext
  | some hs =>
    rw [hh] at hext
    simp only [Option.some_bind, Option.some.injEq, Prod.mk.injEq] at hext
    obtain ⟨h1, h2⟩ := hext
    constructor
    · intro q hq
      rw [← h2]
      simp [Url.port_or_known_default, hq]
    · intro hnone
      have hd : u.port_or_known_default = knownDefaultPort u.scheme := by
        simp [Url.port_or_known_default, hnone]
      rw [← h2, hd]
      refine ⟨?_, ?_, ?_, ?_⟩
      · rintro (h | h) <;> rw [h] <;> decide
      · rintro (h | h) <;> rw [h] <;> decide
      · intro h
        rw [h]
        decide
      · intro n1 n2 n3 n4 n5
        simp [knownDefaultPort, n1, n2, n3, n4, n5]

/-- Witness for the amended C4 on a URL with an explicit port: the
exact port 8443 is returned. -/
theorem C4_port_selection_witness :
    Url.parse ("https://example.com:8443/path") =
      some ⟨("https"), some ("example.com"), some 8443⟩ ∧
    extract_host_port ("https://example.com:8443/path") =
      some (("example.com", 8443)) ∧
    (8443 : ℕ) = 8443 :=
  ⟨by decide, by decide,
    (C4_port_selection ("https://example.com:8443/path")
        ⟨("https"), some ("example.com"), some 8443⟩ ("example.com") 8443
        (by decide) (by decide)).1 8443 rfl⟩

/-- C6 counterexample: a URL may carry the explicit port 0, which
extract_host_port returns as 0, not a strictly positive port. -/
theorem C6_counterexample :
    extract_host_port ("http://example.com:0") = some (("example.com", 0)) ∧
    ¬ (0 : ℕ) > 0 :=
  ⟨by decide, by decide⟩

/-- C6 amended: every result of extract_host_port has a nonempty host
string and a port below 65536, and the port is strictly positive
whenever the parsed URL records no explicit port (an explicit port may
be 0 and is then returned as 0). -/
theorem C6_host_port_invariants :
    ∀ (s : String) (u : Url) (host : String) (p : ℕ),
      Url.parse s = some u → extract_host_port s = some (host, p) →
      host ≠ "" ∧ p < 65536 ∧ (u.port = none → 0 < p) := by
  intro s u host p hparse hext
  have inv := Url.parse_inv s u hparse
  unfold extract_host_port at hext
  rw [hparse] at hext
  simp only [Option.some_bind, Url.host_str] at hext
  cases hh : u.host with
  | none =>
    rw [hh] at hext
    simp at hext
  | some hs =>
    rw [hh] at hext
    simp only [Option.some_bind, Option.some.injEq, Prod.mk.injEq] at hext
    obtain ⟨h1, h2⟩ := hext
    refine ⟨?_, ?_, ?_⟩
    · rw [← h1]
      exact inv.2 hs hh
    · cases hq : u.port with
      | some q =>
        have hb := (inv.1 q hq).1
        have hd : u.port_or_known_default = some q := by
          simp [Url.port_or_known_default, hq]
        rw [hd] at h2
        simp at h2
        omega
      | none =>
        have hd : u.port_or_known_default = knownDefaultPort u.scheme := by
          simp [Url.port_or_known_default, hq]
        rw [hd] at h2
        have hb := knownDefaultPort_getD_bounds u.scheme
        omega
    · intro hq
      have hd : u.port_or_known_default = knownDefaultPort u.scheme := by
        simp [Url.port_or_known_default, hq]
      rw [hd] at h2
      have hb := knownDefaultPort_getD_bounds u.scheme
      omega

/-- Witness for the amended C6 on a concrete URL with no explicit
port. -/
theorem C6_host_port_invariants_witness :
    Url.parse ("https://speed.cloudflare.com") =
      some ⟨("https"), some ("speed.cloudflare.com"), none⟩ ∧
    extract_host_port ("https://speed.cloudflare.com") =
      some (("speed.cloudflare.com", 443)) ∧
    (("speed.cloudflare.com" : String) ≠ ("") ∧ (443 : ℕ) < 65536 ∧
      ((⟨("https"), some ("speed.cloudflare.com"), none⟩ : Url).port = none →
        0 < 443)) :=
  ⟨by decide, by decide,
    C6_host_port_invariants ("https://speed.cloudflare.com")
      ⟨("https"), some ("speed.cloudflare.com"), none⟩
      ("speed.cloudflare.com") 443 (by decide) (by decide)⟩

/-- C7: for every input that does not parse as a URL or parses to a URL
without a host component, extract_host_port returns none; the function
is total with an Option result, so no other failure mode exists. -/
theorem C7_absent_on_malformed_or_hostless :
    ∀ (s : String),
      (Url.parse s = none ∨ ∃ u, Url.parse s = some u ∧ u.host_str = none) →
      extract_host_port s = none := by
  intro s hs
  unfold extract_host_port
  rcases hs with h | ⟨u, hu, hh⟩
  · rw [h]
    rfl
  · rw [hu]
    simp only [Option.some_bind]
    rw [hh]
    rfl

/-- Witness for C7 on a URL with a scheme but no host component. -/
theorem C7_absent_on_malformed_or_hostless_witness :
    (Url.parse ("mailto:user@example.com") = none ∨
      ∃ u, Url.parse ("mailto:user@example.com") = some u ∧
        u.host_str = none) ∧
    extract_host_port ("mailto:user@example.com") = none :=
  ⟨Or.inr ⟨⟨("mailto"), none, none⟩, by decide, rfl⟩,
    C7_absent_on_malformed_or_hostless ("mailto:user@example.com")
      (Or.inr ⟨⟨("mailto"), none, none⟩, by decide, rfl⟩)⟩

/-- C10: the host is returned in normalized form: on a URL whose host
is written with uppercase letters the returned host string is the
lowercased domain, which differs from the literal host text of the
input. -/
theorem C10_host_is_normalized :
    extract_host_port ("https://EXAMPLE.com") = some (("example.com", 443)) ∧
    ("example.com" : String) ≠ ("EXAMPLE.com") :=
  ⟨by decide, by decide⟩

end CfSpeed
